import Mathlib

/-!
Shallow embedding of the proxy-resolution core of `crypto-utils`
(src/crypto/api/bsc.py and src/crypto/utils/web3.py).

Modelling conventions:
* Addresses are natural numbers (the numeric value of the 20-byte account
  identifier).  `toChecksumAddress` only re-encodes the hex string in mixed
  case, so numerically it is the identity and `checksum` is omitted.
* Python exceptions are the inductive `Exc`; a computation that may raise is
  an `Except Exc _`.  Functions additionally return the updated client state
  and a trace of the external calls they performed (`Ev`), so that claims
  about which calls happen (storage probe, metadata fetch) are statable.
* An address string produced by web3 (`implementation()` call result or
  `hexbytes_to_address`) is always a nonempty string, hence truthy in Python
  even when it denotes the zero address; Python `if implementation:` is
  therefore modelled as `Option.isSome` of the value left after the
  try/except, with `none` exactly where the code assigns `None`.
* The deployed bytecode of an address is a `List Nat` of bytes;
  `is_empty` (web3.py) tests membership in ACCEPTABLE_EMPTY_STRINGS, which
  for a `get_code` result means the byte string is empty.
* `get_storage_at(address, _IMPLEMENTATION_SLOT)` returns a 32-byte word,
  modelled as a natural number; `hexbytes_to_address` keeps its last
  40 hex digits, i.e. the value modulo 2^160.
* ABIs are opaque identifiers (`Nat`); the explorer's `get_contract_abi`
  may raise (the bscscan client raises `AssertionError` on API errors, and
  transport failures raise other exceptions), so the world maps an address
  to `Except Exc Nat`.
-/

/-- Python exception kinds relevant to bsc.py: `ValueError` and
`ContractLogicError` are the two caught by `resolve_implementation`,
`AssertionError` is the one caught by `resolve_proxy`, `other` stands for
any further exception (network errors, etc.). -/
inductive Exc where
  | valueError
  | contractLogicError
  | assertionError
  | other
deriving DecidableEq, Repr

/-- Result of attempting `contract.get_function_by_signature('implementation()')().call()`:
either the address value the call returned, or the exception it raised. -/
inductive ImplCallResult where
  | ok (addr : Nat)
  | raise (e : Exc)
deriving DecidableEq, Repr

/-- A bound web3 contract handle: the address it dispatches to and the ABI it
decodes with (`web3.eth.contract(address=..., abi=...)`). -/
structure Contract where
  address : Nat
  abi : Nat
deriving DecidableEq, Repr

/-- Cached explorer metadata (`get_contract_source_code` result); only the
`Proxy` field is relevant to the claims. -/
structure Info where
  proxy : String
deriving DecidableEq, Repr

/-- The mutable fields of a `BinanceSmartChain` client. -/
structure State where
  address : Nat
  implementation : Nat
  contract : Option Contract
  info : Option Info
  error : Option Exc
deriving DecidableEq, Repr

/-- External-call events, used to state which outbound calls a code path
performs and in which order. -/
inductive Ev where
  | implMethodCall (c : Contract)
  | storageProbe (addr : Nat)
  | getAbi (addr : Nat)
  | getSource (addr : Nat)
  | getCode (addr : Nat)
  | getBalance (addr : Nat)
deriving DecidableEq, Repr

/-- The environment: blockchain and explorer responses, fixed for a run. -/
structure World where
  /-- `web3.eth.get_code(address)`: deployed bytecode. -/
  code : Nat → List Nat
  /-- `web3.eth.get_storage_at(address, _IMPLEMENTATION_SLOT)` as a 32-byte word. -/
  storageAt : Nat → Nat
  /-- outcome of calling `implementation()` through a bound contract handle. -/
  implCall : Contract → ImplCallResult
  /-- the `Proxy` field of `get_contract_source_code(address)[0]`. -/
  proxyFlag : Nat → String
  /-- `scan.get_contract_abi(address)`: the verified ABI, or an exception. -/
  abiOf : Nat → Except Exc Nat
  /-- `scan.get_bnb_balance(address)` parsed as an integer of smallest units. -/
  bnbBalance : Nat → Nat

/-- `BinanceSmartChain.__init__`: both `_address` and `_implementation` start
at the checksummed constructor address; no contract, no info, no error. -/
def init_state (address : Nat) : State :=
  { address := address, implementation := address,
    contract := none, info := none, error := none }

/-- `is_empty` (web3.py): a `get_code` result counts as empty exactly when
the returned byte string is empty. -/
def is_empty (data : List Nat) : Bool :=
  data = []

/-- `is_zero_address` (web3.py): `to_int(address) == 0`. -/
def is_zero_address (address : Nat) : Bool :=
  address = 0

/-- `hexbytes_to_address` (web3.py): keep the last 40 hex digits of the hex
rendering of the 32-byte word, i.e. the low 20 bytes. -/
def hexbytes_to_address (word : Nat) : Nat :=
  word % 2 ^ 160

/-- The two exception kinds caught by `resolve_implementation`'s
`except (ValueError, ContractLogicError)` clause. -/
def recognizedErr (e : Exc) : Bool :=
  e = Exc.valueError || e = Exc.contractLogicError

/-- Result triple of a stateful, traced, possibly-raising operation. -/
structure Out (α : Type) where
  res : Except Exc α
  st : State
  tr : List Ev
deriving Repr

/-- `BinanceSmartChain.resolve_implementation`.  If a contract is bound, try
the `implementation()` method call; on `ValueError` / `ContractLogicError`
fall back to the implementation storage slot, mapping a zero word to `None`.
Any other exception propagates.  A non-`None` value (NB: the method-call
result is a nonempty address string, truthy even when zero) is checksummed,
stored in `_implementation` and returned; otherwise the result is `None`. -/
def resolve_implementation (w : World) (s : State) : Out (Option Nat) :=
  match s.contract with
  | none => ⟨.ok none, s, []⟩
  | some c =>
    match w.implCall c with
    | .ok a =>
        ⟨.ok (some a), { s with implementation := a }, [.implMethodCall c]⟩
    | .raise e =>
        if recognizedErr e then
          let raw := hexbytes_to_address (w.storageAt s.address)
          if is_zero_address raw then
            ⟨.ok none, s, [.implMethodCall c, .storageProbe s.address]⟩
          else
            ⟨.ok (some raw), { s with implementation := raw },
              [.implMethodCall c, .storageProbe s.address]⟩
        else
          ⟨.error e, s, [.implMethodCall c]⟩

/-- `get_contract_info`: return the cached metadata, fetching and caching it
on first use. -/
def get_contract_info (w : World) (s : State) : Info × State × List Ev :=
  match s.info with
  | some i => (i, s, [])
  | none =>
    let i : Info := ⟨w.proxyFlag s.address⟩
    (i, { s with info := some i }, [.getSource s.address])

/-- `BinanceSmartChain._is_proxy_address`: metadata comes from the cache when
the queried address is the client's own, from a fresh explorer call
otherwise; the flag test is `info[0]['Proxy'] != '0'`. -/
def is_proxy_address (w : World) (s : State) (address : Nat) : Bool × State × List Ev :=
  if address = s.address then
    let (i, s1, t1) := get_contract_info w s
    (i.proxy ≠ "0", s1, t1)
  else
    (w.proxyFlag address ≠ "0", s, [.getSource address])

/-- The `is_proxy` property:
`self._is_proxy_address(self._address) or self.resolve_implementation()`.
Python `or` short-circuits, and the truth value of the second operand is
whether `resolve_implementation` returned a (string) address rather than
`None`. -/
def is_proxy (w : World) (s : State) : Out Bool :=
  let (flag, s1, t1) := is_proxy_address w s s.address
  if flag then ⟨.ok true, s1, t1⟩
  else
    let r := resolve_implementation w s1
    match r.res with
    | .ok impl => ⟨.ok impl.isSome, r.st, t1 ++ r.tr⟩
    | .error e => ⟨.error e, r.st, t1 ++ r.tr⟩

/-- `BinanceSmartChain._is_contract_address`: `not is_empty(get_code(address))`. -/
def is_contract_address (w : World) (address : Nat) : Bool :=
  !is_empty (w.code address)

/-- The `is_contract` property: `True` when a contract handle is cached,
otherwise the bytecode check on the active address. -/
def is_contract (w : World) (s : State) : Bool × List Ev :=
  match s.contract with
  | some _ => (true, [])
  | none => (is_contract_address w s.address, [.getCode s.address])

/-- `BinanceSmartChain._get_contract`: fetch the ABI from the explorer when
none is supplied, then bind `web3.eth.contract(address=address, abi=abi)`. -/
def get_contract (w : World) (address : Nat) (abi : Option Nat) :
    Except Exc Contract × List Ev :=
  match abi with
  | some a => (.ok ⟨address, a⟩, [])
  | none =>
    match w.abiOf address with
    | .ok a => (.ok ⟨address, a⟩, [.getAbi address])
    | .error e => (.error e, [.getAbi address])

/-- `BinanceSmartChain._set_contract`: when no contract is cached and the
active address carries bytecode, bind a contract for it (fetching its ABI)
and attach its methods; otherwise do nothing. -/
def set_contract (w : World) (s : State) : Out Unit :=
  match s.contract with
  | some _ => ⟨.ok (), s, []⟩
  | none =>
    let (isC, t1) := is_contract w s
    if isC then
      match get_contract w s.address none with
      | (.ok c, t2) => ⟨.ok (), { s with contract := some c }, t1 ++ t2⟩
      | (.error e, t2) => ⟨.error e, s, t1 ++ t2⟩
    else ⟨.ok (), s, t1⟩

/-- The body of `resolve_proxy`'s `try` block, after a successful
implementation resolution.  Override mode: move the active address to the
implementation, drop the cached contract and metadata, and rerun the
contract-loading step.  Non-override mode: fetch the implementation's ABI
and bind it to the original (proxy) address. -/
def resolve_proxy_step (w : World) (override : Bool) (s : State) : Out Unit :=
  if override then
    set_contract w { s with address := s.implementation, contract := none, info := none }
  else
    match w.abiOf s.implementation with
    | .ok abi =>
        ⟨.ok (), { s with contract := some ⟨s.address, abi⟩ }, [.getAbi s.implementation]⟩
    | .error e => ⟨.error e, s, [.getAbi s.implementation]⟩

/-- `BinanceSmartChain.resolve_proxy`: clear the stored error, resolve the
implementation, and if one was found run the rebinding step, catching
(only) `AssertionError`, which is stored in `self.error` and turned into a
`False` return. -/
def resolve_proxy (w : World) (override : Bool) (s : State) : Out Bool :=
  let r := resolve_implementation w { s with error := none }
  match r.res with
  | .error e => ⟨.error e, r.st, r.tr⟩
  | .ok none => ⟨.ok false, r.st, r.tr⟩
  | .ok (some _) =>
    match resolve_proxy_step w override r.st with
    | ⟨.ok _, s2, t2⟩ => ⟨.ok true, s2, r.tr ++ t2⟩
    | ⟨.error .assertionError, s2, t2⟩ =>
        ⟨.ok false, { s2 with error := some .assertionError }, r.tr ++ t2⟩
    | ⟨.error e, s2, t2⟩ => ⟨.error e, s2, r.tr ++ t2⟩

/-- `BinanceSmartChain.resolve_proxies`, with explicit fuel for the
`while success:` loop: `none` means the fuel ran out before the loop did
(the source has no cycle guard), `some` is the observed outcome. -/
def resolve_proxies (w : World) (override : Bool) : Nat → State → Option (Except Exc Bool × State)
  | 0, _ => none
  | fuel + 1, s =>
    match resolve_proxy w override s with
    | ⟨.ok true, s1, _⟩ => resolve_proxies w override fuel s1
    | ⟨.ok false, s1, _⟩ => some (.ok false, s1)
    | ⟨.error e, s1, _⟩ => some (.error e, s1)

/-- Rendering of the stored exception inside `decode_input`'s message
(`f': {self.error}'`). -/
def excMsg : Exc → String
  | .valueError => "ValueError"
  | .contractLogicError => "ContractLogicError"
  | .assertionError => "AssertionError"
  | .other => "Exception"

/-- `BinanceSmartChain.decode_input`: with no bound contract, raise
`ValueError('Cannot get contract' + optional stored-error suffix)`; with a
contract, delegate to `contract.decode_function_input(input)` (modelled as
the pair of the handle it is called on and the input). -/
def decode_input (s : State) (input : String) : Except String (Contract × String) :=
  match s.contract with
  | none =>
    .error ("Cannot get contract" ++
      (match s.error with | some e => ": " ++ excMsg e | none => ""))
  | some c => .ok (c, input)

/-- Modelled from the spec: `Conversions.to_ticker_unit` of the bscscan
client library is not part of this repository's sources; per the spec it
converts a raw smallest-unit integer to the human decimal unit by exact
division by `10 ^ decimals`, modelled over `ℚ`. -/
def to_ticker_unit (number : Nat) (decimals : Nat) : ℚ :=
  (number : ℚ) / (10 : ℚ) ^ decimals

/-- `from_wei` (web3.py): `Conversions.to_ticker_unit(int(value), decimals)`
with 18 decimals by default. -/
def from_wei (value : Nat) (decimals : Nat := 18) : ℚ :=
  to_ticker_unit value decimals

/-- `BinanceSmartChain.get_bnb_balance`:
`from_wei(self._scan.get_bnb_balance(self._address))`. -/
def get_bnb_balance (w : World) (s : State) : ℚ :=
  from_wei (w.bnbBalance s.address)

/-- The module-global `BSC_CLIENT`, once set, is a factory closing over the
API key of the first call; `none` models the initial `BSC_CLIENT = None`. -/
abbrev BscGlobal := Option String

/-- A constructed `BinanceSmartChain` handle as `bsc_client` returns it: the
API key the client talks to the explorer with, plus its initial state. -/
structure ClientHandle where
  apiKey : String
  st : State
deriving DecidableEq, Repr

/-- `bsc_client(address, api_key, ...)` acting on the global `BSC_CLIENT`.
On first use the key is taken from the argument or, when that is `None`
(modelled by `none`), from the environment (`envKey`); a missing or empty
key is fatal (`error(...)` — modelled from the spec: `crypto.utils.error`
is not under the sources, and per the spec its absence "is a fatal
configuration error", modelled as `Except.error`).  The surviving key is
captured in the stored factory; every call, first or later, builds a fresh
client for the address of that call. -/
def bsc_client (envKey : Option String) (g : BscGlobal) (address : Nat)
    (apiKey : Option String) : Except String (ClientHandle × BscGlobal) :=
  match g with
  | some k => .ok (⟨k, init_state address⟩, some k)
  | none =>
    let key : Option String := match apiKey with | none => envKey | some k => some k
    match key with
    | none => .error "Missing BSCSCAN_API_KEY (.env)"
    | some k =>
      if k = "" then .error "Missing BSCSCAN_API_KEY (.env)"
      else .ok (⟨k, init_state address⟩, some k)

/-! ## Concrete worlds and states used by counterexamples and witnesses -/

/-- A baseline environment: no bytecode anywhere, zero storage, the
`implementation()` call raises `ValueError`, no proxy flags, ABI id 7
everywhere, zero balances. -/
def w0 : World where
  code := fun _ => []
  storageAt := fun _ => 0
  implCall := fun _ => ImplCallResult.raise Exc.valueError
  proxyFlag := fun _ => "0"
  abiOf := fun _ => Except.ok 7
  bnbBalance := fun _ => 0

/-- A client for address 5 with a contract handle (ABI id 1) already bound. -/
def sBound : State :=
  { init_state 5 with contract := some ⟨5, 1⟩ }

/-! ## Helper lemmas -/

/-- When `resolve_implementation` returns an address, the only state change
is that `_implementation` now holds that address. -/
theorem resolve_implementation_ok_some (w : World) (s : State) (a : Nat)
    (h : (resolve_implementation w s).res = .ok (some a)) :
    (resolve_implementation w s).st = { s with implementation := a } := by
  cases hc : s.contract with
  | none => simp [resolve_implementation, hc] at h
  | some c =>
    cases hcall : w.implCall c with
    | ok x =>
      simp [resolve_implementation, hc, hcall] at h ⊢
      rw [h]
    | raise e =>
      by_cases hre : recognizedErr e = true
      · by_cases hz : is_zero_address (hexbytes_to_address (w.storageAt s.address)) = true
        · simp [resolve_implementation, hc, hcall, hre, hz] at h
        · simp [resolve_implementation, hc, hcall, hre, hz] at h ⊢
          rw [h]
      · simp [resolve_implementation, hc, hcall, hre] at h

/-- The trace of `resolve_implementation`, in closed form. -/
theorem resolve_implementation_tr (w : World) (s : State) :
    (resolve_implementation w s).tr =
      match s.contract with
      | none => []
      | some c =>
        match w.implCall c with
        | .ok _ => [Ev.implMethodCall c]
        | .raise e =>
          if recognizedErr e then
            [Ev.implMethodCall c, Ev.storageProbe s.address]
          else [Ev.implMethodCall c] := by
  cases hc : s.contract with
  | none => simp [resolve_implementation, hc]
  | some c =>
    cases hcall : w.implCall c with
    | ok x => simp [resolve_implementation, hc, hcall]
    | raise e =>
      by_cases hre : recognizedErr e = true
      · simp only [resolve_implementation, hc, hcall, hre, if_true]
        split <;> simp
      · simp [resolve_implementation, hc, hcall, hre]

/-! ## C1: zero implementation address -/

/-- The environment of the C1 counterexample: the bound contract's
`implementation()` method call succeeds and returns the zero address. -/
def wC1 : World :=
  { w0 with implCall := fun _ => ImplCallResult.ok 0 }

/-- Claim C1 fails as stated: when the `implementation()` method call itself
returns the zero address, `resolve_implementation` does not yield `None`; it
returns the zero address (a truthy address string in the source) and even
stores it as the current implementation.  The zero-address check is applied
only on the storage-slot path. -/
theorem C1_counterexample :
    (resolve_implementation wC1 sBound).res = .ok (some 0) ∧
    (resolve_implementation wC1 sBound).res ≠ .ok none ∧
    (resolve_implementation wC1 sBound).st.implementation = 0 := by
  refine ⟨rfl, ?_, rfl⟩
  intro h
  simp [resolve_implementation, wC1, sBound, w0] at h

/-- Claim C1 (amended): a zero resolved address yields "no implementation"
exactly on the storage-slot fallback path; when the `implementation()`
method call raises a recognized error and the implementation slot holds
a word whose low 20 bytes are zero, resolution returns `None`, while a zero
address returned by the method call itself is returned as a resolved
implementation. -/
theorem C1_zero_address (w : World) (s : State) (c : Contract)
    (hc : s.contract = some c) :
    (∀ e, w.implCall c = ImplCallResult.raise e → recognizedErr e = true →
      hexbytes_to_address (w.storageAt s.address) = 0 →
      (resolve_implementation w s).res = .ok none) ∧
    (w.implCall c = ImplCallResult.ok 0 →
      (resolve_implementation w s).res = .ok (some 0)) := by
  constructor
  · intro e hcall hre hz
    simp [resolve_implementation, hc, hcall, hre, is_zero_address, hz]
  · intro hcall
    simp [resolve_implementation, hc, hcall]

/-- Witness for C1's amended theorem: in the baseline environment (method
call raises `ValueError`, zero storage word) with a bound contract, the
storage-slot path maps the zero address to `None`. -/
theorem C1_zero_address_witness :
    (resolve_implementation w0 sBound).res = .ok none :=
  (C1_zero_address w0 sBound ⟨5, 1⟩ rfl).1 Exc.valueError rfl rfl rfl

/-! ## C2: storage-slot probe gating -/

/-- Claim C2: the EIP-1967 storage-slot probe is executed if and only if a
contract is bound and the preceding `implementation()` method call raised
one of the two recognized exception kinds; moreover every probe occurrence
sits right after the method-call attempt in the trace, so the probe is
never executed unconditionally and never executed first. -/
theorem C2_storage_probe_iff (w : World) (s : State) :
    (Ev.storageProbe s.address ∈ (resolve_implementation w s).tr ↔
      ∃ c e, s.contract = some c ∧ w.implCall c = ImplCallResult.raise e ∧
        recognizedErr e = true) ∧
    (∀ a, Ev.storageProbe a ∈ (resolve_implementation w s).tr →
      ∃ c, s.contract = some c ∧
        (resolve_implementation w s).tr =
          [Ev.implMethodCall c, Ev.storageProbe a]) := by
  rw [resolve_implementation_tr]
  cases hc : s.contract with
  | none => simp
  | some c =>
    cases hcall : w.implCall c with
    | ok x => simp [hcall]
    | raise e =>
      by_cases hre : recognizedErr e = true
      · simp only [hcall, hre, if_true]
        constructor
        · simp
          exact ⟨e, hcall, hre⟩
        · intro a ha
          simp at ha
          exact ⟨c, rfl, by rw [ha]⟩
      · simp [hcall, hre]

/-- The environment of the C2 witness: `implementation()` raises
`ContractLogicError` (a revert), so the probe must fire. -/
def wC2 : World :=
  { w0 with implCall := fun _ => ImplCallResult.raise Exc.contractLogicError }

/-- Witness for C2: with a bound contract whose `implementation()` call
reverts, the storage probe is in the trace, and it comes second. -/
theorem C2_witness :
    Ev.storageProbe 5 ∈ (resolve_implementation wC2 sBound).tr ∧
    (resolve_implementation wC2 sBound).tr =
      [Ev.implMethodCall ⟨5, 1⟩, Ev.storageProbe 5] := by
  have h := (C2_storage_probe_iff wC2 sBound).1.mpr
    ⟨⟨5, 1⟩, Exc.contractLogicError, rfl, rfl, rfl⟩
  refine ⟨h, ?_⟩
  obtain ⟨c, hc, htr⟩ := (C2_storage_probe_iff wC2 sBound).2 5 h
  have : c = (⟨5, 1⟩ : Contract) := by
    have : some c = some (⟨5, 1⟩ : Contract) := by rw [← hc]; rfl
    exact Option.some.inj this
  rw [htr, this]

/-! ## C3: proxy detection -/

/-- The metadata lookup inside `_is_proxy_address` only ever performs
explorer source fetches; it never touches the chain or a contract method. -/
theorem is_proxy_address_tr (w : World) (s : State) (address : Nat) :
    (is_proxy_address w s address).2.2 = [] ∨
    ∃ a, (is_proxy_address w s address).2.2 = [Ev.getSource a] := by
  unfold is_proxy_address get_contract_info
  by_cases h : address = s.address
  · simp only [h, if_true]
    cases s.info with
    | none => right; exact ⟨s.address, rfl⟩
    | some i => left; rfl
  · simp only [h, if_false]
    right; exact ⟨address, rfl⟩

/-- The environment of the C3 counterexample: the explorer reports the
proxy flag as set, and the `implementation()` call would succeed. -/
def wC3 : World :=
  { w0 with proxyFlag := fun _ => "1", implCall := fun _ => ImplCallResult.ok 9 }

/-- Claim C3 fails in its independence part: with the explorer flag set,
`is_proxy` returns true but its trace is just the metadata fetch — the
`or` short-circuits, so implementation resolution (method call or storage
probe) is never attempted even though a contract is bound and the method
call would have succeeded. -/
theorem C3_counterexample :
    sBound.contract = some ⟨5, 1⟩ ∧
    wC3.proxyFlag 5 = "1" ∧
    wC3.implCall ⟨5, 1⟩ = ImplCallResult.ok 9 ∧
    (is_proxy wC3 sBound).res = .ok true ∧
    (is_proxy wC3 sBound).tr = [Ev.getSource 5] := by
  exact ⟨rfl, rfl, rfl, rfl, rfl⟩

/-- Claim C3 (amended): `is_proxy` is true exactly when the explorer flag is
set or an implementation address resolves, but resolution is attempted only
when the flag is not set: any `implementation()` method-call event in the
trace implies the flag was unset. -/
theorem C3_is_proxy_flag_or_resolvable (w : World) (s : State) :
    (∀ b, (is_proxy w s).res = .ok b →
      (b = true ↔ ((is_proxy_address w s s.address).1 = true ∨
        ∃ a, (resolve_implementation w (is_proxy_address w s s.address).2.1).res =
          .ok (some a)))) ∧
    (∀ c, Ev.implMethodCall c ∈ (is_proxy w s).tr →
      (is_proxy_address w s s.address).1 = false) := by
  rcases hp : is_proxy_address w s s.address with ⟨flag, s1, t1⟩
  cases flag with
  | true =>
    constructor
    · intro b hb
      simp only [is_proxy, hp] at hb
      simp at hb
      simp [hb, hp]
    · intro c hc
      simp only [is_proxy, hp] at hc
      simp at hc
      have := is_proxy_address_tr w s s.address
      rw [hp] at this
      rcases this with h | ⟨a, h⟩
      · simp at h; rw [h] at hc; simp at hc
      · simp at h; rw [h] at hc; simp at hc
  | false =>
    constructor
    · intro b hb
      simp only [is_proxy, hp] at hb
      cases hr : (resolve_implementation w s1).res with
      | error e => rw [hr] at hb; simp at hb
      | ok impl =>
        rw [hr] at hb
        simp at hb
        simp [← hb, Option.isSome_iff_exists]
    · intro c hc
      rfl

/-- The environment of the C3 witness: flag unset, `implementation()`
succeeds with address 9. -/
def wC3w : World :=
  { w0 with implCall := fun _ => ImplCallResult.ok 9 }

/-- Witness for C3's amended theorem: with the flag unset and a resolvable
implementation, `is_proxy` reports true, and the method-call event in its
trace certifies the flag was unset. -/
theorem C3_witness :
    (true = true ↔ ((is_proxy_address wC3w sBound sBound.address).1 = true ∨
      ∃ a, (resolve_implementation wC3w
        (is_proxy_address wC3w sBound sBound.address).2.1).res = .ok (some a))) ∧
    (is_proxy_address wC3w sBound sBound.address).1 = false :=
  ⟨(C3_is_proxy_flag_or_resolvable wC3w sBound).1 true rfl,
   (C3_is_proxy_flag_or_resolvable wC3w sBound).2 ⟨5, 1⟩ (by decide)⟩

/-! ## C4: failure handling in resolve_proxy -/

/-- The environment of the C4 counterexample: implementation resolves to
address 9, but fetching 9's ABI raises an exception that is not an
`AssertionError` (e.g. a transport error). -/
def wC4 : World :=
  { w0 with implCall := fun _ => ImplCallResult.ok 9,
            abiOf := fun _ => Except.error Exc.other }

/-- Claim C4 fails as stated: when fetching the implementation's ABI fails
with an exception other than `AssertionError`, `resolve_proxy` does not
return `False` — the exception propagates past the caller, and nothing is
stored in the error field. -/
theorem C4_counterexample :
    (resolve_proxy wC4 false sBound).res = .error Exc.other ∧
    (∀ b, (resolve_proxy wC4 false sBound).res ≠ .ok b) ∧
    (resolve_proxy wC4 false sBound).st.error = none := by
  refine ⟨rfl, ?_, rfl⟩
  intro b h
  rw [show (resolve_proxy wC4 false sBound).res = .error Exc.other from rfl] at h
  exact Except.noConfusion h

/-- Claim C4 (amended): if, after a successful implementation resolution,
the ABI-fetch / method-binding step fails with an `AssertionError` (the
one exception kind the `try` block catches, and the kind the explorer
client raises on API errors), then `resolve_proxy` returns `False` and
stores the failure in the client's `error` field instead of raising. -/
theorem C4_assertion_error_caught (w : World) (override : Bool) (s : State)
    (a : Nat)
    (hres : (resolve_implementation w { s with error := none }).res =
      .ok (some a))
    (hstep : (resolve_proxy_step w override
      (resolve_implementation w { s with error := none }).st).res =
        .error Exc.assertionError) :
    (resolve_proxy w override s).res = .ok false ∧
    (resolve_proxy w override s).st.error = some Exc.assertionError := by
  unfold resolve_proxy
  rcases hri : resolve_implementation w { s with error := none } with ⟨res1, s1, t1⟩
  rw [hri] at hres hstep
  simp only at hres hstep
  rw [hres]
  simp only
  rcases hst : resolve_proxy_step w override s1 with ⟨res2, s2, t2⟩
  rw [hst] at hstep
  simp only at hstep
  rw [hstep]
  exact ⟨rfl, rfl⟩

/-- The environment of the C4 witness: implementation resolves to 9 and the
explorer's ABI fetch fails with an `AssertionError`. -/
def wC4w : World :=
  { w0 with implCall := fun _ => ImplCallResult.ok 9,
            abiOf := fun _ => Except.error Exc.assertionError }

/-- Witness for C4's amended theorem at a concrete environment. -/
theorem C4_witness :
    (resolve_proxy wC4w false sBound).res = .ok false ∧
    (resolve_proxy wC4w false sBound).st.error = some Exc.assertionError :=
  C4_assertion_error_caught wC4w false sBound 9 rfl rfl

/-! ## C5: override vs non-override resolution -/

/-- Closed form of the non-override rebinding step: fetch the
implementation's ABI and bind it to the current (proxy) address. -/
theorem resolve_proxy_step_plain (w : World) (s : State) :
    resolve_proxy_step w false s =
      match w.abiOf s.implementation with
      | .ok abi => ⟨.ok (), { s with contract := some ⟨s.address, abi⟩ },
          [Ev.getAbi s.implementation]⟩
      | .error e => ⟨.error e, s, [Ev.getAbi s.implementation]⟩ := by
  unfold resolve_proxy_step
  cases w.abiOf s.implementation <;> rfl

/-- Closed form of the override rebinding step: move the active address to
the implementation, drop cached contract and metadata, and redo the
contract-loading step at the new address. -/
theorem resolve_proxy_step_override (w : World) (s : State) :
    resolve_proxy_step w true s =
      if is_contract_address w s.implementation then
        match w.abiOf s.implementation with
        | .ok abi =>
            ⟨.ok (),
              { s with
                  address := s.implementation, info := none,
                  contract := some ⟨s.implementation, abi⟩ },
              [Ev.getCode s.implementation, Ev.getAbi s.implementation]⟩
        | .error e =>
            ⟨.error e,
              { s with
                  address := s.implementation, contract := none, info := none },
              [Ev.getCode s.implementation, Ev.getAbi s.implementation]⟩
      else
        ⟨.ok (),
          { s with address := s.implementation, contract := none, info := none },
          [Ev.getCode s.implementation]⟩ := by
  unfold resolve_proxy_step set_contract is_contract get_contract
  dsimp only
  cases is_contract_address w s.implementation
  · rfl
  · cases w.abiOf s.implementation <;> rfl

/-- Claim C5: after a successful `resolve_proxy(override=True)` the active
address has moved to the implementation and the cached contract/metadata
state belongs to it (metadata cleared for lazy refetch, contract rebound to
the new address with its freshly fetched ABI — or absent when the new
address carries no bytecode); after a successful
`resolve_proxy(override=False)` the dispatch address is unchanged, and the
bound contract pairs the original proxy address with the implementation's
ABI. -/
theorem C5_resolve_proxy_modes (w : World) (s s' : State) :
    (∀ tr, resolve_proxy w true s = ⟨.ok true, s', tr⟩ →
      s'.address = s'.implementation ∧ s'.info = none ∧
      (is_contract_address w s'.address = true →
        ∃ abi, w.abiOf s'.address = .ok abi ∧
          s'.contract = some ⟨s'.address, abi⟩) ∧
      (is_contract_address w s'.address = false → s'.contract = none)) ∧
    (∀ tr, resolve_proxy w false s = ⟨.ok true, s', tr⟩ →
      s'.address = s.address ∧
      ∃ abi, w.abiOf s'.implementation = .ok abi ∧
        s'.contract = some ⟨s.address, abi⟩) := by
  constructor
  · intro tr h
    unfold resolve_proxy at h
    rcases hri : resolve_implementation w { s with error := none } with ⟨res1, s1, t1⟩
    rw [hri] at h
    cases res1 with
    | error e => simp at h
    | ok impl =>
      cases impl with
      | none => simp at h
      | some a =>
        have h1 := resolve_implementation_ok_some w { s with error := none } a
          (by rw [hri])
        rw [hri] at h1
        dsimp only at h1
        have hs1i : s1.implementation = a := by rw [h1]
        rcases hst : resolve_proxy_step w true s1 with ⟨res2, s2, t2⟩
        dsimp only at h
        rw [hst] at h
        cases res2 with
        | error e => cases e <;> simp at h
        | ok u =>
          simp only [Out.mk.injEq, Except.ok.injEq] at h
          obtain ⟨-, hs2, -⟩ := h
          subst hs2
          rw [resolve_proxy_step_override, hs1i] at hst
          by_cases hca : is_contract_address w a = true
          · rw [if_pos hca] at hst
            rcases habi : w.abiOf a with e | abi
            · rw [habi] at hst
              simp at hst
            · rw [habi] at hst
              rw [Out.mk.injEq] at hst
              obtain ⟨-, hs2', -⟩ := hst
              rw [← hs2']
              exact ⟨rfl, rfl, fun _ => ⟨abi, habi, rfl⟩,
                fun hf => by simp [hca] at hf⟩
          · rw [if_neg hca] at hst
            rw [Out.mk.injEq] at hst
            obtain ⟨-, hs2', -⟩ := hst
            rw [← hs2']
            refine ⟨rfl, rfl, fun hf => absurd hf hca, fun _ => rfl⟩
  · intro tr h
    unfold resolve_proxy at h
    rcases hri : resolve_implementation w { s with error := none } with ⟨res1, s1, t1⟩
    rw [hri] at h
    cases res1 with
    | error e => simp at h
    | ok impl =>
      cases impl with
      | none => simp at h
      | some a =>
        have h1 := resolve_implementation_ok_some w { s with error := none } a
          (by rw [hri])
        rw [hri] at h1
        dsimp only at h1
        have hs1i : s1.implementation = a := by rw [h1]
        have hs1a : s1.address = s.address := by rw [h1]
        rcases hst : resolve_proxy_step w false s1 with ⟨res2, s2, t2⟩
        dsimp only at h
        rw [hst] at h
        cases res2 with
        | error e => cases e <;> simp at h
        | ok u =>
          simp only [Out.mk.injEq, Except.ok.injEq] at h
          obtain ⟨-, hs2, -⟩ := h
          subst hs2
          rw [resolve_proxy_step_plain, hs1i] at hst
          rcases habi : w.abiOf a with e | abi
          · rw [habi] at hst
            simp at hst
          · rw [habi] at hst
            rw [Out.mk.injEq] at hst
            obtain ⟨-, hs2', -⟩ := hst
            rw [← hs2']
            refine ⟨hs1a, abi, habi, ?_⟩
            show some (⟨s1.address, abi⟩ : Contract) = some ⟨s.address, abi⟩
            rw [hs1a]

/-- The environment of the C5 witness: every address carries bytecode, the
`implementation()` call yields address 9, ABI fetches succeed with id 7. -/
def wC5 : World :=
  { w0 with code := fun _ => [1], implCall := fun _ => ImplCallResult.ok 9 }

/-- Final state of the C5 override-mode run. -/
def sC5o : State :=
  { address := 9, implementation := 9, contract := some ⟨9, 7⟩,
    info := none, error := none }

/-- Final state of the C5 non-override-mode run. -/
def sC5p : State :=
  { address := 5, implementation := 9, contract := some ⟨5, 7⟩,
    info := none, error := none }

/-- Witness for C5 at a concrete environment, covering both modes. -/
theorem C5_witness :
    (sC5o.address = sC5o.implementation ∧ sC5o.info = none ∧
      (is_contract_address wC5 sC5o.address = true →
        ∃ abi, wC5.abiOf sC5o.address = .ok abi ∧
          sC5o.contract = some ⟨sC5o.address, abi⟩) ∧
      (is_contract_address wC5 sC5o.address = false → sC5o.contract = none)) ∧
    (sC5p.address = sBound.address ∧
      ∃ abi, wC5.abiOf sC5p.implementation = .ok abi ∧
        sC5p.contract = some ⟨sBound.address, abi⟩) :=
  ⟨(C5_resolve_proxy_modes wC5 sBound sC5o).1
      [Ev.implMethodCall ⟨5, 1⟩, Ev.getCode 9, Ev.getAbi 9] rfl,
   (C5_resolve_proxy_modes wC5 sBound sC5p).2
      [Ev.implMethodCall ⟨5, 1⟩, Ev.getAbi 9] rfl⟩

/-! ## C6: the bsc_client global -/

/-- Claim C6 fails as stated: the first call (with environment key "k")
installs the factory, but a second call for a different address returns a
fresh client bound to that second address — the first call's address does
not win; only the API key is captured process-wide. -/
theorem C6_counterexample :
    bsc_client (some "k") none 1 none =
      .ok (⟨"k", init_state 1⟩, some "k") ∧
    bsc_client (some "k") (some "k") 2 none =
      .ok (⟨"k", init_state 2⟩, some "k") ∧
    (init_state 2).address = 2 ∧ (init_state 2).address ≠ (init_state 1).address := by
  exact ⟨rfl, rfl, rfl, by decide⟩

/-- Claim C6 (amended): the lazily-constructed, process-wide singleton is
the client factory, keyed by nothing and capturing the first call's API
key (first key wins); every call — first or later — returns a fresh client
bound to that call's own address, constructed with the captured key. -/
theorem C6_first_key_wins (envKey : Option String) (address : Nat)
    (apiKey : Option String) (k : String) :
    (bsc_client envKey (some k) address apiKey =
      .ok (⟨k, init_state address⟩, some k)) ∧
    (k ≠ "" → bsc_client envKey none address (some k) =
      .ok (⟨k, init_state address⟩, some k)) ∧
    (k ≠ "" → bsc_client (some k) none address none =
      .ok (⟨k, init_state address⟩, some k)) ∧
    (bsc_client none none address none =
      .error "Missing BSCSCAN_API_KEY (.env)") := by
  refine ⟨rfl, ?_, ?_, rfl⟩
  · intro hk
    unfold bsc_client
    simp [hk]
  · intro hk
    unfold bsc_client
    simp [hk]

/-- Witness for C6's amended theorem at concrete keys and addresses. -/
theorem C6_witness :
    bsc_client (some "e") (some "k") 3 none =
      .ok (⟨"k", init_state 3⟩, some "k") ∧
    bsc_client (some "e") none 3 (some "k") =
      .ok (⟨"k", init_state 3⟩, some "k") :=
  ⟨(C6_first_key_wins (some "e") 3 none "k").1,
   (C6_first_key_wins (some "e") 3 (some "k") "k").2.1 (by decide)⟩

/-! ## C7: decode_input without a bound contract -/

/-- Claim C7: with no contract bound, `decode_input` fails with a
`ValueError` whose message names the cause ("Cannot get contract", plus
the stored error if any); the bound-contract handle is never touched. -/
theorem C7_decode_input_no_contract (s : State) (input : String)
    (h : s.contract = none) :
    ∃ suffix, decode_input s input =
      .error ("Cannot get contract" ++ suffix) := by
  unfold decode_input
  rw [h]
  cases herr : s.error with
  | none => exact ⟨_, rfl⟩
  | some e => exact ⟨_, rfl⟩

/-- Witness for C7 on a freshly initialised client. -/
theorem C7_witness :
    ∃ suffix, decode_input (init_state 5) "0xdeadbeef" =
      .error ("Cannot get contract" ++ suffix) :=
  C7_decode_input_no_contract (init_state 5) "0xdeadbeef" rfl

/-! ## C8: empty bytecode means no contract and no metadata call -/

/-- Claim C8: for an address with empty deployed bytecode (and no contract
handle cached yet, as on a fresh client), `is_contract` is false and the
contract-loading step leaves the state unchanged, performing only the
bytecode check — no verified-source or ABI explorer call. -/
theorem C8_no_code_no_metadata (w : World) (s : State)
    (hcode : w.code s.address = []) (hc : s.contract = none) :
    (is_contract w s).1 = false ∧
    set_contract w s = ⟨.ok (), s, [Ev.getCode s.address]⟩ := by
  have hflag : is_contract_address w s.address = false := by
    unfold is_contract_address is_empty
    rw [hcode]
    rfl
  constructor
  · unfold is_contract
    rw [hc, hflag]
  · unfold set_contract is_contract
    rw [hc]
    dsimp only
    rw [hflag]
    rfl

/-- The environment of the C8 witness: no address carries bytecode. -/
def wC8 : World := w0

/-- Witness for C8 on a freshly initialised client for address 5. -/
theorem C8_witness :
    (is_contract wC8 (init_state 5)).1 = false ∧
    set_contract wC8 (init_state 5) =
      ⟨.ok (), init_state 5, [Ev.getCode 5]⟩ :=
  C8_no_code_no_metadata wC8 (init_state 5) rfl rfl

/-! ## C9: balance formatting -/

/-- Claim C9: a raw balance of 1500000000000000000 smallest units with the
default 18 decimals formats to exactly 1.5. -/
theorem C9_balance_formatting (w : World) (s : State)
    (h : w.bnbBalance s.address = 1500000000000000000) :
    get_bnb_balance w s = (1.5 : ℚ) := by
  unfold get_bnb_balance from_wei to_ticker_unit
  rw [h]
  norm_num

/-- The environment of the C9 witness: the explorer reports balance
1500000000000000000 for every address. -/
def wC9 : World :=
  { w0 with bnbBalance := fun _ => 1500000000000000000 }

/-- Witness for C9 at a concrete environment. -/
theorem C9_witness : get_bnb_balance wC9 (init_state 5) = (1.5 : ℚ) :=
  C9_balance_formatting wC9 (init_state 5) rfl

/-! ## C10: resolve_proxies always reports failure -/

/-- Claim C10: whenever the `while success:` loop of `resolve_proxies`
terminates normally (some fuel suffices), the returned boolean is the
final failing step's value — `False` — regardless of how many earlier
steps succeeded. -/
theorem C10_resolve_proxies_false (w : World) (override : Bool) :
    ∀ fuel s b s2, resolve_proxies w override fuel s = some (.ok b, s2) →
      b = false := by
  intro fuel
  induction fuel with
  | zero =>
    intro s b s2 h
    simp [resolve_proxies] at h
  | succ n ih =>
    intro s b s2 h
    unfold resolve_proxies at h
    rcases hr : resolve_proxy w override s with ⟨res1, s1, t1⟩
    rw [hr] at h
    cases res1 with
    | error e =>
      cases e <;> simp_all
    | ok bb =>
      cases bb with
      | true => exact ih s1 b s2 h
      | false => simp at h; exact h.1

/-- Witness for C10: in the baseline environment a fresh client (no bound
contract) fails on the very first resolution step, so one unit of fuel
terminates the loop with `False`. -/
theorem C10_witness :
    resolve_proxies w0 false 1 (init_state 5) =
      some (.ok false, init_state 5) ∧ false = false :=
  ⟨rfl, C10_resolve_proxies_false w0 false 1 (init_state 5) false
    (init_state 5) rfl⟩
